import Mathlib

/-!
Shallow embedding of the reaplex-prototype job-queue / scraper pipeline
(src/reaplex_queue/queue.py, src/queue/queue.py, src/worker/worker.py,
src/classifier/classifier.py, src/scraper/router.py, src/scraper/html_scraper.py,
src/scraper/js_scraper.py, src/scraper/base.py), together with theorems that
settle the specification claims.

Conventions of the embedding:
- Wall-clock instants (time.time()) are modelled as integers.
- Redis structures become Lean lists: a set is a list without duplicates, a
  list is a Lean list whose head is the Redis left end (LPUSH = cons,
  RPOP = pop the last element), a hash is an association list.
- Fallible Python code returns Except (an `Except.error` models a raised
  exception).
- Effects (fresh UUIDs, the current time, network responses) are passed as
  explicit arguments.
-/

namespace Reaplex

/-! ### String helpers (models of Python str operations) -/

/-- Model of Python str.lower (ASCII case folding as used by the repository);
written over the underlying character list so that it computes by kernel
reduction. -/
def strToLower (s : String) : String := ⟨s.data.map Char.toLower⟩

/-- Model of Python `needle in hay` substring containment. -/
def strContains (hay needle : String) : Bool :=
  decide (needle.toList <:+: hay.toList)

/-- Model of Python str.endswith. -/
def strEndsWith (s suf : String) : Bool :=
  decide (suf.toList <:+ s.toList)

/-! ### Classifier (src/classifier/classifier.py) -/

/-- A classifier payload: `url` is `payload.get("url")`, `render_js` is the
`render_js` entry when it is a boolean (`payload.get("render_js") is True`
only matches the literal boolean True). A `none` field models an absent key. -/
structure ClassifierPayload where
  url : Option String := none
  render_js : Option Bool := none
deriving DecidableEq

/-- skip_extensions from classify (src/classifier/classifier.py line 36). -/
def skip_extensions : List String :=
  [".pdf", ".jpg", ".jpeg", ".png", ".gif", ".zip", ".exe"]

/-- browser_domains from classify (src/classifier/classifier.py lines 42-48). -/
def browser_domains : List String :=
  ["twitter.com", "instagram.com", "facebook.com", "tiktok.com", "youtube.com"]

/-- classify (src/classifier/classifier.py lines 7-56). `payload.get("url", "")`
followed by `if not url` means a missing url and an empty url both yield
"skip" before any other rule is consulted. -/
def classify (payload : ClassifierPayload) : String :=
  let url := payload.url.getD ""
  if url = "" then "skip"
  else
    let url_lower := strToLower url
    if payload.render_js = some true then "browser"
    else if skip_extensions.any (fun ext => strEndsWith url_lower ext) then "skip"
    else if browser_domains.any (fun d => strContains url_lower d) then "browser"
    else "html"

/-- The classifier rules exactly as the claim words them: rule 1 fires only
when the url FIELD is absent ("no url field yields skip"); every payload with
a url field present proceeds to the later rules. Used to compare the claimed
rule table with the source classify. -/
def classify_claimed (payload : ClassifierPayload) : String :=
  match payload.url with
  | none => "skip"
  | some url =>
    let url_lower := strToLower url
    if payload.render_js = some true then "browser"
    else if skip_extensions.any (fun ext => strEndsWith url_lower ext) then "skip"
    else if browser_domains.any (fun d => strContains url_lower d) then "browser"
    else "html"

/-- The claimed rule table amended exactly where the counterexample forces it:
rule 1 fires when the url field is missing OR empty. -/
def classify_amended (payload : ClassifierPayload) : String :=
  match payload.url with
  | none => "skip"
  | some url =>
    if url = "" then "skip"
    else
      let url_lower := strToLower url
      if payload.render_js = some true then "browser"
      else if skip_extensions.any (fun ext => strEndsWith url_lower ext) then "skip"
      else if browser_domains.any (fun d => strContains url_lower d) then "browser"
      else "html"

/-! ### Job model (src/reaplex_queue/models.py) -/

/-- MAX_ATTEMPTS (src/reaplex_queue/queue.py line 15 and src/queue/queue.py
line 14). -/
def MAX_ATTEMPTS : Nat := 3

/-- Job (src/reaplex_queue/models.py). The payload is an opaque key-value map,
modelled as an association list of strings. -/
structure Job where
  id : String
  payload : List (String × String)
  created_at : Int
  attempts : Nat
  started_at : Option Int
  error : Option String
  failed_at : Option Int
deriving DecidableEq

/-- Job(payload=payload): the dataclass defaults — a fresh id, created_at =
now, attempts 0, no started_at / error / failed_at. The fresh uuid and the
clock are passed explicitly. -/
def newJob (payload : List (String × String)) (id : String) (now : Int) : Job :=
  { id := id, payload := payload, created_at := now, attempts := 0,
    started_at := none, error := none, failed_at := none }

/-! ### Payload fingerprint (Queue._hash_payload) -/

/-- Key-sorted insertion used to model json.dumps(payload, sort_keys=True). -/
def insertSorted (kv : String × String) :
    List (String × String) → List (String × String)
  | [] => [kv]
  | x :: xs => if kv.1 ≤ x.1 then kv :: x :: xs else x :: insertSorted kv xs

/-- Sort the payload entries by key. -/
def sortByKeys (p : List (String × String)) : List (String × String) :=
  p.foldr insertSorted []

/-- A JSON string literal (escaping is irrelevant for the claims). -/
def jsonString (s : String) : String := "\"" ++ s ++ "\""

/-- Model of json.dumps(payload, sort_keys=True): a deterministic, key-sorted
serialization of the payload map. -/
def dumpsSortKeys (p : List (String × String)) : String :=
  "\x7b" ++
    String.intercalate ", "
      ((sortByKeys p).map (fun kv => jsonString kv.1 ++ ": " ++ jsonString kv.2))
    ++ "\x7d"

/-- Model of hashlib.sha256(raw.encode()).hexdigest(): an uninterpreted
deterministic digest of the input string. Every claim depends only on the
digest being a deterministic function of its input, never on collision
behaviour, so the digest is modelled as a tagged copy of the input. -/
def sha256hexdigest (raw : String) : String := "sha256:" ++ raw

/-- Queue._hash_payload (src/reaplex_queue/queue.py lines 350-354):
sha256 over the key-sorted deterministic serialization of the payload. -/
def hash_payload (payload : List (String × String)) : String :=
  sha256hexdigest (dumpsSortKeys payload)

/-! ### Queue state (src/reaplex_queue/redis_keys.py keys; §3 of the spec) -/

/-- The five logical Redis keys: queue:seen (set), queue:pending (list, head =
Redis left end), queue:processing (hash id → job), queue:done (set),
queue:failed (hash id → job). -/
structure QueueState where
  seen : List String
  pending : List Job
  processing : List (String × Job)
  done : List String
  failed : List (String × Job)
deriving DecidableEq

/-- The empty store. -/
def initialState : QueueState :=
  { seen := [], pending := [], processing := [], done := [], failed := [] }

/-- Redis HGET on an association list. -/
def hget : List (String × Job) → String → Option Job
  | [], _ => none
  | e :: rest, k => if e.1 = k then some e.2 else hget rest k

/-- Redis HSET on an association list: replace the binding when the field
exists, append it otherwise. -/
def hset : List (String × Job) → String → Job → List (String × Job)
  | [], k, v => [(k, v)]
  | e :: rest, k, v => if e.1 = k then (k, v) :: rest else e :: hset rest k v

/-- Redis HDEL on an association list. -/
def hdel (m : List (String × Job)) (k : String) : List (String × Job) :=
  m.filter (fun e => decide (e.1 ≠ k))

/-- Redis SADD on a list-as-set. -/
def sadd (s : List String) (x : String) : List String :=
  if x ∈ s then s else x :: s

/-! ### Queue operations (src/reaplex_queue/queue.py; src/queue/queue.py is a
second copy of the same module with identical Lua scripts — the fakeredis
fallback branches of the first copy have the same net effect as the scripts
and are not modelled separately). -/

/-- Queue.enqueue (lines 36-87): SADD the payload fingerprint into queue:seen;
when it is new, LPUSH a fresh Job onto queue:pending and return true,
otherwise return false and change nothing. -/
def enqueue (st : QueueState) (payload : List (String × String)) (id : String)
    (now : Int) : QueueState × Bool :=
  let payload_hash := hash_payload payload
  let job := newJob payload id now
  if payload_hash ∈ st.seen then (st, false)
  else
    ({ st with seen := payload_hash :: st.seen, pending := job :: st.pending },
     true)

/-- Queue._dequeue_once (lines 112-157): RPOP queue:pending; when a job comes
back, set started_at to now, HSET it into queue:processing under its id and
return it. -/
def dequeue_once (st : QueueState) (now : Int) : QueueState × Option Job :=
  match st.pending.getLast? with
  | none => (st, none)
  | some raw =>
    let job := { raw with started_at := some now }
    ({ st with pending := st.pending.dropLast,
               processing := hset st.processing job.id job },
     some job)

/-- Queue.dequeue (lines 93-110): poll _dequeue_once until the deadline; the
number of remaining poll iterations is the fuel. -/
def dequeue (st : QueueState) : Nat → Int → QueueState × Option Job
  | 0, _ => (st, none)
  | fuel + 1, now =>
    let r := dequeue_once st now
    match r.2 with
    | some job => (r.1, some job)
    | none => dequeue st fuel now

/-- Queue.ack_success (lines 163-174): HDEL from queue:processing and SADD the
id into queue:done. -/
def ack_success (st : QueueState) (job_id : String) : QueueState :=
  { st with processing := hdel st.processing job_id,
            done := sadd st.done job_id }

/-- Queue.ack_failure (lines 176-219): HGET from queue:processing; when
present, attach the error and failed_at = now, HSET into queue:failed under
the id and HDEL from queue:processing; when absent, do nothing. -/
def ack_failure (st : QueueState) (job_id : String) (error : String)
    (now : Int) : QueueState :=
  match hget st.processing job_id with
  | none => st
  | some job =>
    let job2 := { job with error := some error, failed_at := some now }
    { st with failed := hset st.failed job_id job2,
              processing := hdel st.processing job_id }

/-- The staleness test of _requeue_one: `(now - (job.started_at or 0)) >
timeout` (the Lua script returns 0 when `<=`). -/
def isStale (job : Job) (now timeout : Int) : Bool :=
  decide (now - job.started_at.getD 0 > timeout)

/-- `job.attempts = (job.attempts or 0) + 1; job.started_at = nil`. -/
def bumpJob (job : Job) : Job :=
  { job with attempts := job.attempts + 1, started_at := none }

/-- The terminal form a stale job takes on retry exhaustion. -/
def failJob (job : Job) (now : Int) : Job :=
  { bumpJob job with error := some "Timeout: max attempts exceeded",
                     failed_at := some now }

/-- Queue._requeue_one (lines 246-321): HGET the job; when it is stale,
increment attempts, clear started_at, LPUSH onto queue:pending when attempts <
MAX_ATTEMPTS and otherwise HSET the failed form into queue:failed under
job.id; HDEL from queue:processing either way and report a move. -/
def requeue_one (st : QueueState) (job_id : String) (now timeout : Int) :
    QueueState × Bool :=
  match hget st.processing job_id with
  | none => (st, false)
  | some job =>
    if isStale job now timeout then
      let job2 := bumpJob job
      if job2.attempts < MAX_ATTEMPTS then
        ({ st with pending := job2 :: st.pending,
                   processing := hdel st.processing job_id }, true)
      else
        let job3 := failJob job now
        ({ st with failed := hset st.failed job3.id job3,
                   processing := hdel st.processing job_id }, true)
    else (st, false)

/-- The per-field loop of Queue.requeue_stale: _requeue_one for each scanned
field, counting moves. -/
def requeue_ids (st : QueueState) (ids : List String) (now timeout : Int) :
    QueueState × Nat :=
  match ids with
  | [] => (st, 0)
  | id :: rest =>
    let r := requeue_one st id now timeout
    let r2 := requeue_ids r.1 rest now timeout
    (r2.1, (if r.2 then 1 else 0) + r2.2)

/-- Queue.requeue_stale (lines 225-244): HSCAN queue:processing (the
cursor-paged scan enumerates every field of the hash) and _requeue_one each
field, returning the number moved. -/
def requeue_stale (st : QueueState) (now timeout : Int) : QueueState × Nat :=
  requeue_ids st (st.processing.map Prod.fst) now timeout

/-- Queue.stats (lines 327-344): the five cardinalities. -/
structure Stats where
  seen : Nat
  pending : Nat
  processing : Nat
  done : Nat
  failed : Nat
deriving DecidableEq

/-- Queue.stats. -/
def stats (st : QueueState) : Stats :=
  { seen := st.seen.length, pending := st.pending.length,
    processing := st.processing.length, done := st.done.length,
    failed := st.failed.length }

/-! ### Worker (src/worker/worker.py) -/

/-- A job dictionary as handed to Worker._process_job: `job.get("id")` and
`job.get("payload", {})`, so both fields may be absent. -/
structure WireJob where
  id : Option String := none
  payload : Option (List (String × String)) := none

/-- The single acknowledgement a job run performs against the queue. -/
inductive Ack where
  | success (job_id : String)
  | failure (job_id : String) (error : String)
deriving DecidableEq

/-- Worker._process_job (src/worker/worker.py lines 104-129): `job_id =
job.get("id")`; `if not job_id` (so a missing id and an empty-string id alike)
drops the job without any acknowledgement; otherwise the handler runs on
`job.get("payload", {})` and exactly one of queue.ack_success(job_id) /
queue.ack_failure(job_id, str(e)) is performed. The handler outcome is an
Except whose error is the stringified exception. -/
def process_job (st : QueueState)
    (handler : List (String × String) → Except String Unit) (job : WireJob)
    (now : Int) : QueueState × Option Ack :=
  let job_id := job.id.getD ""
  let payload := job.payload.getD []
  if job_id = "" then (st, none)
  else
    match handler payload with
    | Except.ok _ => (ack_success st job_id, some (Ack.success job_id))
    | Except.error e =>
        (ack_failure st job_id e now, some (Ack.failure job_id e))

/-! ### Scraper results (src/scraper/base.py) -/

/-- ScrapeResult (src/scraper/base.py lines 6-17): a dataclass whose six
fields, timestamp included, are all required (none has a default). -/
structure ScrapeResult where
  url : String
  html : String
  status : Int
  scraper_type : String
  response_time : Int
  timestamp : Int
deriving DecidableEq

/-- The keyword arguments supplied to the ScrapeResult dataclass constructor;
a `none` field models an argument the call site omitted. -/
structure ScrapeResultArgs where
  url : Option String := none
  html : Option String := none
  status : Option Int := none
  scraper_type : Option String := none
  response_time : Option Int := none
  timestamp : Option Int := none

/-- Model of calling the ScrapeResult dataclass constructor: since every field
is required, a call that omits one raises TypeError. -/
def mkScrapeResult (a : ScrapeResultArgs) : Except String ScrapeResult :=
  match a.url, a.html, a.status, a.scraper_type, a.response_time,
      a.timestamp with
  | some u, some h, some s, some t, some rt, some ts =>
      Except.ok { url := u, html := h, status := s, scraper_type := t,
                  response_time := rt, timestamp := ts }
  | _, _, _, _, _, _ =>
      Except.error "TypeError: ScrapeResult missing required argument"

/-- The response object client.get returns (src/scraper/html_scraper.py). -/
structure HttpResponse where
  text : String
  status_code : Int

/-- HTMLScraper.fetch (src/scraper/html_scraper.py lines 17-58). clientResult
is the outcome of `client.get(url, timeout=timeout)` (an Except.error models a
raised network exception) and duration models `time.time() - start_time`. On a
successful GET the source constructs `ScrapeResult(url=..., html=...,
status=..., scraper_type="html", response_time=duration)` — the required
timestamp argument is omitted, exactly as at lines 48-54; the except-clause
re-raises whatever the try block raised. -/
def HTMLScraper_fetch (clientResult : Except String HttpResponse)
    (url : String) (duration : Int) : Except String ScrapeResult :=
  match clientResult with
  | Except.error e => Except.error e
  | Except.ok response =>
      mkScrapeResult
        { url := some url, html := some response.text,
          status := some response.status_code, scraper_type := some "html",
          response_time := some duration }

/-- JSScraper.fetch / _fetch_async (src/scraper/js_scraper.py lines 18-78).
sessionResult is the rendered page content the browser session yields (an
Except.error models a raised browser error); on success the source constructs
a ScrapeResult with status 200, scraper_type "js" and all fields present. -/
def JSScraper_fetch (sessionResult : Except String String) (url : String)
    (duration ts : Int) : Except String ScrapeResult :=
  match sessionResult with
  | Except.error e => Except.error e
  | Except.ok html =>
      mkScrapeResult
        { url := some url, html := some html, status := some 200,
          scraper_type := some "js", response_time := some duration,
          timestamp := some ts }

/-! ### Router (src/scraper/router.py) -/

/-- ScraperRouter._looks_js_heavy indicator phrases (lines 63-69). -/
def js_indicators : List String :=
  ["need to enable javascript",
   "javascript is required",
   "please enable javascript",
   "browser doesn't support javascript",
   "you need to enable javascript to run this app"]

/-- ScraperRouter._looks_js_heavy (lines 54-89): an empty body, a body whose
lowercase form contains a JS-required phrase, or a body shorter than 2000
characters whose lowercase form contains an SPA root hook, is a JS shell. -/
def looks_js_heavy (html : String) : Bool :=
  if html = "" then true
  else
    let lower_html := strToLower html
    if js_indicators.any (fun ind => strContains lower_html ind) then true
    else if decide (html.length < 2000) &&
        (strContains lower_html "id=\"root\"" ||
         strContains lower_html "id=\"app\"" ||
         strContains lower_html "id=\"__next\"") then true
    else false

/-- The fetcher invocations a route call performs, in order. -/
inductive FetchCall where
  | http
  | browser
deriving DecidableEq

/-- ScraperRouter.route (lines 19-52), instrumented with the list of fetcher
invocations it performs. htmlFetch and jsFetch are the outcomes
HTMLScraper.fetch and JSScraper.fetch would produce for this call (an
Except.error models a raised exception). When force_js is set the browser is
used directly; otherwise the HTTP result is returned unless its body looks
like a JS shell or the HTTP fetch raised, in which case the browser is
invoked and its outcome returned. -/
def route (htmlFetch jsFetch : Except String ScrapeResult) (force_js : Bool) :
    Except String ScrapeResult × List FetchCall :=
  if force_js then (jsFetch, [FetchCall.browser])
  else
    match htmlFetch with
    | Except.ok result =>
        if looks_js_heavy result.html then
          (jsFetch, [FetchCall.http, FetchCall.browser])
        else (Except.ok result, [FetchCall.http])
    | Except.error _ => (jsFetch, [FetchCall.http, FetchCall.browser])

/-! ### Reachability (for the cross-operation invariant claims) -/

/-- One application of a queue operation, with arbitrary operation inputs. -/
inductive QStep : QueueState → QueueState → Prop
  | enqueue (st : QueueState) (payload : List (String × String)) (id : String)
      (now : Int) : QStep st (enqueue st payload id now).1
  | dequeue (st : QueueState) (fuel : Nat) (now : Int) :
      QStep st (dequeue st fuel now).1
  | ack_success (st : QueueState) (job_id : String) :
      QStep st (ack_success st job_id)
  | ack_failure (st : QueueState) (job_id error : String) (now : Int) :
      QStep st (ack_failure st job_id error now)
  | requeue_stale (st : QueueState) (now timeout : Int) :
      QStep st (requeue_stale st now timeout).1

/-- A state reachable from the empty store by queue operations. -/
def Reachable (st : QueueState) : Prop :=
  Relation.ReflTransGen QStep initialState st

/-! ### Derived vocabulary used by the statements -/

/-- The invariant of the attempt-bound claim: no job sitting in PENDING has
attempts ≥ MAX_ATTEMPTS. -/
def PendingAttemptsBounded (st : QueueState) : Prop :=
  ∀ j ∈ st.pending, j.attempts < MAX_ATTEMPTS

/-- A stale job whose incremented attempts would reach MAX_ATTEMPTS is moved
to FAILED by _requeue_one and PENDING is left untouched. -/
def StaleExhaustedGoesToFailed : Prop :=
  ∀ (st : QueueState) (id : String) (job : Job) (now timeout : Int),
    hget st.processing id = some job → isStale job now timeout = true →
    MAX_ATTEMPTS ≤ job.attempts + 1 →
    (requeue_one st id now timeout).1.pending = st.pending
    ∧ hget (requeue_one st id now timeout).1.failed (failJob job now).id
        = some (failJob job now)

/-- The bumped forms of the stale jobs of a PROCESSING snapshot that still
have attempts left, in scan order. -/
def retryJobs (l : List (String × Job)) (now timeout : Int) : List Job :=
  (l.filter (fun e =>
      isStale e.2 now timeout && decide (e.2.attempts + 1 < MAX_ATTEMPTS))).map
    (fun e => bumpJob e.2)

/-- queue:failed after a scan of the PROCESSING snapshot l: every stale job
out of attempts is written (under its Job id) in scan order. -/
def failedAfter (l : List (String × Job)) (fail : List (String × Job))
    (now timeout : Int) : List (String × Job) :=
  match l with
  | [] => fail
  | e :: rest =>
    if isStale e.2 now timeout && !decide (e.2.attempts + 1 < MAX_ATTEMPTS)
    then failedAfter rest (hset fail (failJob e.2 now).id (failJob e.2 now))
        now timeout
    else failedAfter rest fail now timeout

/-! ### Concrete fixtures for the witnesses -/

/-- The dedup scenario payload. -/
def payloadA : List (String × String) := [("url", "https://a.test")]

/-- The store after one enqueue of payloadA. -/
def stA : QueueState := (enqueue initialState payloadA "job-1" 5).1

/-- Payload for the reachable-state witness. -/
def payloadB : List (String × String) := [("url", "https://b.test")]

/-- A state reached from the empty store by one enqueue. -/
def stB : QueueState := (enqueue initialState payloadB "job-b" 1).1

/-- A job awaiting dispatch, for the dequeue witness. -/
def jobD : Job := newJob [("url", "https://d.test")] "d1" 0

/-- A store whose PENDING holds exactly jobD. -/
def stD : QueueState :=
  { seen := [], pending := [jobD], processing := [], done := [], failed := [] }

/-- An in-flight job for the ack_failure witness. -/
def jobF : Job :=
  { newJob [("url", "https://f.test")] "f1" 0 with started_at := some 1 }

/-- A store whose PROCESSING holds exactly jobF. -/
def stF : QueueState :=
  { seen := [hash_payload [("url", "https://f.test")]], pending := [],
    processing := [("f1", jobF)], done := [], failed := [] }

/-- Stale with attempts left: started at 0, scanned at 100 with timeout 10. -/
def jobStaleRetry : Job :=
  { id := "a", payload := [("url", "https://a.test")], created_at := 0,
    attempts := 0, started_at := some 0, error := none, failed_at := none }

/-- Exactly at the staleness boundary: elapsed 10 with timeout 10. -/
def jobBoundary : Job :=
  { id := "b", payload := [("url", "https://b.test")], created_at := 0,
    attempts := 1, started_at := some 90, error := none, failed_at := none }

/-- Stale with no attempts left: attempts 2, so the bump reaches 3. -/
def jobExhausted : Job :=
  { id := "c", payload := [("url", "https://c.test")], created_at := 0,
    attempts := 2, started_at := some 50, error := none, failed_at := none }

/-- A PROCESSING snapshot holding the three jobs above. -/
def stR : QueueState :=
  { seen := [], pending := [],
    processing := [("a", jobStaleRetry), ("b", jobBoundary),
                   ("c", jobExhausted)],
    done := [], failed := [] }

/-- A static (non-JS-shell) HTTP result for the router witness. -/
def staticResult : ScrapeResult :=
  { url := "https://a.test", html := "a perfectly ordinary static page body",
    status := 200, scraper_type := "html", response_time := 1, timestamp := 2 }

/-- The literal JS-shell body of the spec scenario. -/
def shellBody : String := "<html><body><div id=\"root\"></div></body></html>"

/-- An HTTP result whose body is the literal JS-shell of the spec scenario. -/
def shellResult : ScrapeResult :=
  { url := "https://a.test", html := shellBody, status := 200,
    scraper_type := "html", response_time := 1, timestamp := 0 }

/-- The browser result the JS scraper produces for the fallback witness. -/
def jsResult : ScrapeResult :=
  { url := "https://a.test", html := "<html>rendered</html>", status := 200,
    scraper_type := "js", response_time := 2, timestamp := 9 }

/-! ### Shared helper lemmas -/

theorem hget_hset_self (m : List (String × Job)) (k : String) (v : Job) :
    hget (hset m k v) k = some v := by
  induction m with
  | nil => simp [hget, hset]
  | cons e rest ih =>
    by_cases h : e.1 = k
    · simp [hget, hset, h]
    · simp [hget, hset, h, ih]

theorem hget_append_left (m1 m2 : List (String × Job)) (k : String)
    (h : k ∉ m1.map Prod.fst) : hget (m1 ++ m2) k = hget m2 k := by
  induction m1 with
  | nil => rfl
  | cons e rest ih =>
    simp only [List.map_cons, List.mem_cons] at h
    push_neg at h
    simp only [List.cons_append, hget, List.append_eq]
    rw [if_neg (fun he => h.1 he.symm), ih h.2]

theorem hdel_not_mem (m : List (String × Job)) (k : String)
    (h : k ∉ m.map Prod.fst) : hdel m k = m := by
  refine List.filter_eq_self.mpr ?_
  intro e he
  simp only [decide_eq_true_eq]
  intro hk
  exact h (List.mem_map.mpr ⟨e, he, hk⟩)

theorem hdel_append (m1 m2 : List (String × Job)) (k : String) :
    hdel (m1 ++ m2) k = hdel m1 k ++ hdel m2 k := by
  simp [hdel, List.filter_append]

/-! ### C7 — the classifier -/

/-- C7 counterexample: at the payload whose url field is present but empty and
whose render_js is true, the source classify returns "skip" (the `if not url`
guard fires first), while the claim's ordered rules — rule 1 only covering a
missing url field — yield "browser". -/
theorem classify_claim_counterexample :
    classify { url := some "", render_js := some true } = "skip"
    ∧ classify_claimed { url := some "", render_js := some true }
        = "browser" := by
  exact ⟨rfl, rfl⟩

/-- C7 (amended): classify returns exactly one of "html", "browser", "skip",
applying the claimed rules in order once rule 1 is amended to fire on a
missing OR empty url; the five literal examples of the spec's classifier
table hold. -/
theorem classify_correct :
    (∀ payload : ClassifierPayload, classify payload = classify_amended payload)
    ∧ (∀ payload : ClassifierPayload,
        classify payload = "html" ∨ classify payload = "browser"
        ∨ classify payload = "skip")
    ∧ classify { url := some "https://x.test/file.pdf" } = "skip"
    ∧ classify { url := some "https://twitter.com/u" } = "browser"
    ∧ classify { url := some "https://x.test", render_js := some true }
        = "browser"
    ∧ classify { url := some "https://x.test" } = "html"
    ∧ classify {} = "skip" := by
  refine ⟨?_, ?_, by decide, by decide, by decide, by decide, by decide⟩
  · intro p
    rcases p with ⟨url, rjs⟩
    cases url <;> rfl
  · intro p
    simp only [classify]
    split
    · exact Or.inr (Or.inr rfl)
    · split
      · exact Or.inr (Or.inl rfl)
      · split
        · exact Or.inr (Or.inr rfl)
        · split
          · exact Or.inr (Or.inl rfl)
          · exact Or.inl rfl

/-! ### C5 — router returns static pages unchanged -/

/-- C5: when the HTTP fetch returns a result whose body the JS-heaviness
heuristic classifies as not a JS shell, route (with force_js false) returns
that HTTP result unchanged and the browser fetcher is never invoked. -/
theorem route_static_correct (r : ScrapeResult)
    (jsFetch : Except String ScrapeResult)
    (h : looks_js_heavy r.html = false) :
    route (Except.ok r) jsFetch false = (Except.ok r, [FetchCall.http]) := by
  simp [route, h]

/-- Witness for C5 at a concrete static page. -/
theorem route_static_correct_witness :
    route (Except.ok staticResult) (Except.error "browser unused") false
      = (Except.ok staticResult, [FetchCall.http]) :=
  route_static_correct staticResult (Except.error "browser unused") (by decide)

/-! ### C10 — HTMLScraper.fetch never returns normally -/

/-- C10: for every url and fetch outcome of the underlying HTTP client,
HTMLScraper.fetch never returns normally — on a successful GET the
ScrapeResult it constructs omits the required timestamp field and the
construction raises; on a failed GET the original exception is re-raised —
and therefore every route call with force_js false invokes the JS scraper and
ends with its outcome (its result or its exception). -/
theorem html_fetch_always_raises :
    (∀ (response : HttpResponse) (url : String) (duration : Int),
       HTMLScraper_fetch (Except.ok response) url duration
         = Except.error "TypeError: ScrapeResult missing required argument")
    ∧ (∀ (e url : String) (duration : Int),
       HTMLScraper_fetch (Except.error e) url duration = Except.error e)
    ∧ (∀ (clientResult : Except String HttpResponse) (url : String)
         (duration : Int) (jsFetch : Except String ScrapeResult),
       route (HTMLScraper_fetch clientResult url duration) jsFetch false
         = (jsFetch, [FetchCall.http, FetchCall.browser])) := by
  refine ⟨fun response url duration => rfl, fun e url duration => rfl, ?_⟩
  intro clientResult url duration jsFetch
  cases clientResult with
  | error e => rfl
  | ok response => rfl

/-! ### C6 — router JS fallback -/

/-- C6: when force_js is false and the HTTP body is empty, or its lowercase
form contains one of the five JS-required phrases, or it is shorter than 2000
characters and its lowercase form contains an SPA root hook, route invokes
the browser fetcher exactly once and returns its outcome; in particular for
the literal shell body of the spec, where the JS scraper's returned
scraper_type is "js". -/
theorem route_js_fallback_correct :
    (∀ (r : ScrapeResult) (jsFetch : Except String ScrapeResult),
       (r.html = ""
        ∨ (∃ ind ∈ js_indicators, strContains (strToLower r.html) ind = true)
        ∨ (r.html.length < 2000
           ∧ (strContains (strToLower r.html) "id=\"root\"" = true
              ∨ strContains (strToLower r.html) "id=\"app\"" = true
              ∨ strContains (strToLower r.html) "id=\"__next\"" = true))) →
       route (Except.ok r) jsFetch false
         = (jsFetch, [FetchCall.http, FetchCall.browser]))
    ∧ (∀ r : ScrapeResult,
       r.html = "<html><body><div id=\"root\"></div></body></html>" →
       ∀ (content url : String) (duration ts : Int) (jr : ScrapeResult),
         JSScraper_fetch (Except.ok content) url duration ts = Except.ok jr →
         route (Except.ok r) (Except.ok jr) false
             = (Except.ok jr, [FetchCall.http, FetchCall.browser])
           ∧ jr.scraper_type = "js") := by
  constructor
  · intro r jsFetch h
    have hheavy : looks_js_heavy r.html = true := by
      rcases h with he | ⟨ind, hmem, hc⟩ | ⟨hlen, hroot⟩
      · simp [looks_js_heavy, he]
      · have hany : (js_indicators.any
            (fun ind => strContains (strToLower r.html) ind)) = true :=
          List.any_eq_true.mpr ⟨ind, hmem, hc⟩
        by_cases he : r.html = ""
        · simp [looks_js_heavy, he]
        · simp [looks_js_heavy, he, hany]
      · by_cases he : r.html = ""
        · simp [looks_js_heavy, he]
        · by_cases hany : (js_indicators.any
              (fun ind => strContains (strToLower r.html) ind)) = true
          · simp [looks_js_heavy, he, hany]
          · have hcond : (decide (r.html.length < 2000)
                && (strContains (strToLower r.html) "id=\"root\""
                    || strContains (strToLower r.html) "id=\"app\""
                    || strContains (strToLower r.html) "id=\"__next\"")) = true := by
              rcases hroot with h1 | h1 | h1 <;> simp [hlen, h1]
            simp [looks_js_heavy, he, hany, hcond]
    simp [route, hheavy]
  · intro r hr content url duration ts jr hjr
    have hheavy : looks_js_heavy r.html = true := by rw [hr]; decide
    have hjr2 : jr = ScrapeResult.mk url content 200 "js" duration ts := by
      simpa [JSScraper_fetch, mkScrapeResult, eq_comm] using hjr
    refine ⟨by simp [route, hheavy], by rw [hjr2]⟩

/-- Witness for C6 at the literal shell body and a concrete browser result. -/
theorem route_js_fallback_correct_witness :
    route (Except.ok shellResult) (Except.ok jsResult) false
        = (Except.ok jsResult, [FetchCall.http, FetchCall.browser])
      ∧ jsResult.scraper_type = "js" :=
  route_js_fallback_correct.2 shellResult rfl "<html>rendered</html>"
    "https://a.test" 2 9 jsResult rfl

/-! ### C9 — worker job processing -/

/-- C9 counterexample: the job whose id is the empty string has a non-null id,
and its handler returns normally, yet _process_job performs no
acknowledgement at all (the `if not job_id` guard drops the job), where the
claim requires exactly one ack_success call. -/
theorem process_job_counterexample :
    (process_job initialState (fun _ => Except.ok ())
        { id := some "", payload := some [("url", "https://a.test")] } 0).2
      = none := rfl

/-- C9 (amended): for every dequeued job with a non-null, non-empty id,
_process_job invokes the handler on the job's payload and performs exactly
one acknowledgement — ack_success on normal return, ack_failure with the
stringified error on exception; when the id is missing or empty the job is
dropped, no acknowledgement is performed and the queue state is unchanged. -/
theorem process_job_correct (st : QueueState)
    (handler : List (String × String) → Except String Unit) (job : WireJob)
    (now : Int) :
    ((job.id = none ∨ job.id = some "") →
        process_job st handler job now = (st, none))
    ∧ (∀ id, job.id = some id → id ≠ "" →
        (handler (job.payload.getD []) = Except.ok () →
            process_job st handler job now
              = (ack_success st id, some (Ack.success id)))
        ∧ (∀ e, handler (job.payload.getD []) = Except.error e →
            process_job st handler job now
              = (ack_failure st id e now, some (Ack.failure id e)))) := by
  constructor
  · rintro (h | h) <;> simp [process_job, h]
  · rintro id hid hne
    constructor
    · intro hok
      simp [process_job, hid, hne, hok]
    · intro e herr
      simp [process_job, hid, hne, herr]

/-- Witness for C9 at a concrete job and an always-succeeding handler. -/
theorem process_job_correct_witness :
    process_job initialState (fun _ => Except.ok ())
        { id := some "job-7", payload := some [("url", "https://a.test")] } 3
      = (ack_success initialState "job-7", some (Ack.success "job-7")) :=
  ((process_job_correct initialState (fun _ => Except.ok ())
      { id := some "job-7", payload := some [("url", "https://a.test")] } 3).2
    "job-7" rfl (by decide)).1 rfl

/-! ### C8 — ack_failure -/

/-- C8: when job_id is in PROCESSING, ack_failure moves that job out of
PROCESSING and into FAILED with the given error string attached and failed_at
set to now, all other state untouched; when job_id is not in PROCESSING it is
a no-op leaving the whole queue state unchanged. -/
theorem ack_failure_correct (st : QueueState) (job_id error : String)
    (now : Int) :
    (∀ job, hget st.processing job_id = some job →
        ack_failure st job_id error now
          = { st with
              failed := hset st.failed job_id
                  { job with error := some error, failed_at := some now },
              processing := hdel st.processing job_id })
    ∧ (hget st.processing job_id = none →
        ack_failure st job_id error now = st) := by
  constructor
  · intro job h
    simp [ack_failure, h]
  · intro h
    simp [ack_failure, h]

/-- Witness for C8: a present job moves to FAILED, an absent id is a no-op. -/
theorem ack_failure_correct_witness :
    ack_failure stF "f1" "boom" 9
        = { stF with
            failed := hset stF.failed "f1"
                { jobF with error := some "boom", failed_at := some 9 },
            processing := hdel stF.processing "f1" }
      ∧ ack_failure stF "zz" "boom" 9 = stF :=
  ⟨(ack_failure_correct stF "f1" "boom" 9).1 jobF rfl,
   (ack_failure_correct stF "zz" "boom" 9).2 rfl⟩

/-! ### C1 — enqueue and deduplication -/

/-- C1: enqueue computes the fingerprint by hashing the key-sorted
deterministic serialization of the payload; when the fingerprint is not in
SEEN it adds it to SEEN, pushes a fresh Job carrying the payload onto the
head of PENDING and returns true, touching nothing else; when the fingerprint
is already in SEEN it returns false and leaves the whole state unchanged; and
enqueueing the same payload twice from the empty store returns true then
false with seen and pending counts both 1. -/
theorem enqueue_correct :
    (∀ (st : QueueState) (payload : List (String × String)) (id : String)
       (now : Int),
       hash_payload payload = sha256hexdigest (dumpsSortKeys payload)
       ∧ (hash_payload payload ∉ st.seen →
            enqueue st payload id now
              = ({ st with seen := hash_payload payload :: st.seen,
                           pending := newJob payload id now :: st.pending },
                 true))
       ∧ (hash_payload payload ∈ st.seen →
            enqueue st payload id now = (st, false)))
    ∧ (∀ (payload : List (String × String)) (id1 id2 : String) (t1 t2 : Int),
       (enqueue initialState payload id1 t1).2 = true
       ∧ (enqueue (enqueue initialState payload id1 t1).1 payload id2 t2).2
           = false
       ∧ (stats (enqueue (enqueue initialState payload id1 t1).1 payload
             id2 t2).1).seen = 1
       ∧ (stats (enqueue (enqueue initialState payload id1 t1).1 payload
             id2 t2).1).pending = 1) := by
  constructor
  · intro st payload id now
    refine ⟨rfl, ?_, ?_⟩
    · intro h
      simp [enqueue, h]
    · intro h
      simp [enqueue, h]
  · intro payload id1 id2 t1 t2
    simp [enqueue, initialState, stats]

/-- Witness for C1: the two enqueues of the dedup scenario at a concrete
payload. -/
theorem enqueue_correct_witness :
    (enqueue initialState payloadA "job-1" 5
        = ({ initialState with
             seen := hash_payload payloadA :: initialState.seen,
             pending := newJob payloadA "job-1" 5 :: initialState.pending },
           true))
      ∧ enqueue stA payloadA "job-2" 6 = (stA, false) :=
  ⟨(enqueue_correct.1 initialState payloadA "job-1" 5).2.1 (by decide),
   (enqueue_correct.1 stA payloadA "job-2" 6).2.2 (by decide)⟩

/-! ### C4 — dequeue -/

/-- C4: a single-shot dequeue on a non-empty PENDING pops the tail of PENDING,
sets the popped job's started_at to now, writes the updated job into
PROCESSING under its id and returns it; dequeue returns none when PENDING
stays empty for the whole poll budget; and every job dequeue returns is
present in PROCESSING under its id with non-null started_at. -/
theorem dequeue_correct :
    (∀ (st : QueueState) (now : Int) (front : List Job) (last : Job),
       st.pending = front ++ [last] →
       dequeue_once st now
         = ({ st with
              pending := front,
              processing := hset st.processing last.id
                  { last with started_at := some now } },
            some { last with started_at := some now }))
    ∧ (∀ (st : QueueState) (fuel : Nat) (now : Int),
       st.pending = [] → dequeue st fuel now = (st, none))
    ∧ (∀ (st : QueueState) (fuel : Nat) (now : Int) (job : Job),
       (dequeue st fuel now).2 = some job →
       hget (dequeue st fuel now).1.processing job.id = some job
       ∧ job.started_at = some now) := by
  refine ⟨?_, ?_, ?_⟩
  · intro st now front last h
    simp [dequeue_once, h, List.getLast?_concat, List.dropLast_concat]
  · intro st fuel now h
    induction fuel with
    | zero => rfl
    | succ f ih => simp [dequeue, dequeue_once, h, ih]
  · intro st fuel now job
    induction fuel with
    | zero => intro h; simp [dequeue] at h
    | succ f ih =>
      intro h
      simp only [dequeue] at h ⊢
      cases hp : st.pending.getLast? with
      | none =>
        have hnone : (dequeue_once st now).2 = none := by
          simp [dequeue_once, hp]
        rw [hnone] at h ⊢
        exact ih h
      | some raw =>
        have hsome : dequeue_once st now
            = ({ st with
                 pending := st.pending.dropLast,
                 processing := hset st.processing raw.id
                     { raw with started_at := some now } },
               some { raw with started_at := some now }) := by
          simp [dequeue_once, hp]
        rw [hsome] at h ⊢
        simp only [Option.some.injEq] at h
        subst h
        exact ⟨hget_hset_self _ _ _, rfl⟩

/-- Witness for C4 at a store whose PENDING holds exactly one job. -/
theorem dequeue_correct_witness :
    dequeue_once stD 7
      = ({ stD with
           pending := [],
           processing := hset stD.processing jobD.id
               { jobD with started_at := some 7 } },
         some { jobD with started_at := some 7 }) :=
  dequeue_correct.1 stD 7 [] jobD rfl

/-! ### C3 — the attempt bound on PENDING -/

theorem requeue_one_pending_cases (st : QueueState) (id : String)
    (now timeout : Int) :
    (requeue_one st id now timeout).1.pending = st.pending
    ∨ ∃ j, (requeue_one st id now timeout).1.pending = j :: st.pending
        ∧ j.attempts < MAX_ATTEMPTS := by
  unfold requeue_one
  cases h : hget st.processing id with
  | none => exact Or.inl rfl
  | some job =>
    by_cases hs : isStale job now timeout = true
    · by_cases hb : (bumpJob job).attempts < MAX_ATTEMPTS
      · exact Or.inr ⟨bumpJob job, by simp [hs, hb], hb⟩
      · exact Or.inl (by simp [hs, hb])
    · exact Or.inl (by simp [hs])

theorem requeue_ids_pending_bound (ids : List String) (st : QueueState)
    (now timeout : Int) :
    ∀ j ∈ (requeue_ids st ids now timeout).1.pending,
      j ∈ st.pending ∨ j.attempts < MAX_ATTEMPTS := by
  induction ids generalizing st with
  | nil => exact fun j hj => Or.inl hj
  | cons id rest ih =>
    intro j hj
    simp only [requeue_ids] at hj
    rcases ih (requeue_one st id now timeout).1 j hj with h1 | h1
    · rcases requeue_one_pending_cases st id now timeout with he | ⟨j2, he, hb⟩
      · rw [he] at h1
        exact Or.inl h1
      · rw [he] at h1
        rcases List.mem_cons.mp h1 with rfl | h1
        · exact Or.inr hb
        · exact Or.inl h1
    · exact Or.inr h1

theorem dequeue_once_pending_sub (st : QueueState) (now : Int) :
    ∀ j ∈ (dequeue_once st now).1.pending, j ∈ st.pending := by
  unfold dequeue_once
  cases h : st.pending.getLast? with
  | none => exact fun j hj => hj
  | some raw =>
    intro j hj
    simp only at hj
    exact (List.dropLast_sublist st.pending).subset hj

theorem dequeue_pending_sub (fuel : Nat) (st : QueueState) (now : Int) :
    ∀ j ∈ (dequeue st fuel now).1.pending, j ∈ st.pending := by
  induction fuel with
  | zero => exact fun j hj => hj
  | succ f ih =>
    intro j hj
    simp only [dequeue] at hj
    cases hp : (dequeue_once st now).2 with
    | some job =>
      rw [hp] at hj
      exact dequeue_once_pending_sub st now j hj
    | none =>
      rw [hp] at hj
      exact ih j hj

theorem qstep_preserves_bound (st st2 : QueueState) (h : QStep st st2)
    (hb : PendingAttemptsBounded st) : PendingAttemptsBounded st2 := by
  cases h with
  | enqueue payload id now =>
    intro j hj
    by_cases hm : hash_payload payload ∈ st.seen
    · rw [show (enqueue st payload id now).1 = st by simp [enqueue, hm]] at hj
      exact hb j hj
    · rw [show (enqueue st payload id now).1
          = { st with seen := hash_payload payload :: st.seen,
                      pending := newJob payload id now :: st.pending } by
          simp [enqueue, hm]] at hj
      rcases List.mem_cons.mp hj with rfl | hj
      · simp [newJob, MAX_ATTEMPTS]
      · exact hb j hj
  | dequeue fuel now =>
    intro j hj
    exact hb j (dequeue_pending_sub fuel st now j hj)
  | ack_success job_id =>
    intro j hj
    exact hb j hj
  | ack_failure job_id error now =>
    intro j hj
    have hpend : (ack_failure st job_id error now).pending = st.pending := by
      unfold ack_failure
      cases hget st.processing job_id <;> rfl
    rw [hpend] at hj
    exact hb j hj
  | requeue_stale now timeout =>
    intro j hj
    rcases requeue_ids_pending_bound (st.processing.map Prod.fst) st now
        timeout j hj with h1 | h1
    · exact hb j h1
    · exact h1

/-- C3: in every state reachable by any sequence of queue operations from the
empty store, every job in PENDING has attempts < MAX_ATTEMPTS; and a stale
job whose incremented attempts would reach MAX_ATTEMPTS is written to FAILED
by _requeue_one while PENDING is left untouched. -/
theorem pending_attempts_bounded (st : QueueState) (h : Reachable st) :
    PendingAttemptsBounded st ∧ StaleExhaustedGoesToFailed := by
  constructor
  · induction h with
    | refl => intro j hj; simp [initialState] at hj
    | tail hsteps hstep ih => exact qstep_preserves_bound _ _ hstep ih
  · intro st2 id job now timeout hg hs hmax
    have hb : ¬ (bumpJob job).attempts < MAX_ATTEMPTS := by
      simp only [bumpJob]
      omega
    refine ⟨?_, ?_⟩
    · simp [requeue_one, hg, hs, hb]
    · simp only [requeue_one, hg, hs, hb]
      simpa using hget_hset_self st2.failed (failJob job now).id (failJob job now)

/-- Witness for C3 at the state reached by one enqueue from the empty store. -/
theorem pending_attempts_bounded_witness :
    PendingAttemptsBounded stB ∧ StaleExhaustedGoesToFailed :=
  pending_attempts_bounded stB
    (Relation.ReflTransGen.single
      (QStep.enqueue initialState payloadB "job-b" 1))

/-! ### C2 — requeue_stale -/

theorem requeue_ids_spec (now timeout : Int) :
    ∀ (l kept : List (String × Job)) (seen : List String) (pend : List Job)
      (done : List String) (fail : List (String × Job)),
      ((kept ++ l).map Prod.fst).Nodup →
      requeue_ids
          { seen := seen, pending := pend, processing := kept ++ l,
            done := done, failed := fail } (l.map Prod.fst) now timeout
        = ({ seen := seen,
             pending := (retryJobs l now timeout).reverse ++ pend,
             processing :=
               kept ++ l.filter (fun e => !isStale e.2 now timeout),
             done := done, failed := failedAfter l fail now timeout },
           (l.filter (fun e => isStale e.2 now timeout)).length) := by
  intro l
  induction l with
  | nil =>
    intro kept seen pend done fail h
    simp [requeue_ids, retryJobs, failedAfter]
  | cons e rest ih =>
    intro kept seen pend done fail h
    obtain ⟨id, job⟩ := e
    have h0 := h
    simp only [List.map_append, List.map_cons] at h0
    rw [List.nodup_append] at h0
    obtain ⟨hk, hcons, hdisj⟩ := h0
    have hidrest : id ∉ rest.map Prod.fst := (List.nodup_cons.mp hcons).1
    have hidkept : id ∉ kept.map Prod.fst :=
      fun hmem => hdisj hmem (List.mem_cons_self id _)
    have hg : hget (kept ++ (id, job) :: rest) id = some job := by
      rw [hget_append_left _ _ _ hidkept]
      simp [hget]
    have hd : hdel (kept ++ (id, job) :: rest) id = kept ++ rest := by
      rw [hdel_append, hdel_not_mem _ _ hidkept]
      have h2 : hdel ((id, job) :: rest) id = hdel rest id := by simp [hdel]
      rw [h2, hdel_not_mem _ _ hidrest]
    have hnodup1 : (((kept ++ [(id, job)]) ++ rest).map Prod.fst).Nodup := by
      rw [← List.append_cons]
      exact h
    have hnodup2 : ((kept ++ rest).map Prod.fst).Nodup := by
      simp only [List.map_append]
      rw [List.nodup_append]
      exact ⟨hk, (List.nodup_cons.mp hcons).2,
        fun a ha hb => hdisj ha (List.mem_cons_of_mem _ hb)⟩
    by_cases hs : isStale job now timeout = true
    · by_cases hb : job.attempts + 1 < MAX_ATTEMPTS
      · -- stale with attempts left: requeued onto the head of PENDING
        have hb2 : (bumpJob job).attempts < MAX_ATTEMPTS := by
          simpa [bumpJob] using hb
        have hro : requeue_one
            { seen := seen, pending := pend,
              processing := kept ++ (id, job) :: rest, done := done,
              failed := fail } id now timeout
          = ({ seen := seen, pending := bumpJob job :: pend,
               processing := kept ++ rest, done := done, failed := fail },
             true) := by
          simp [requeue_one, hg, hs, hb2, hd]
        simp only [List.map_cons, requeue_ids]
        rw [hro]
        rw [ih kept seen (bumpJob job :: pend) done fail hnodup2]
        simp [retryJobs, failedAfter, List.filter_cons, hs, hb, Nat.add_comm]
      · -- stale and out of attempts: written to FAILED
        have hb2 : ¬ (bumpJob job).attempts < MAX_ATTEMPTS := by
          simpa [bumpJob] using hb
        have hro : requeue_one
            { seen := seen, pending := pend,
              processing := kept ++ (id, job) :: rest, done := done,
              failed := fail } id now timeout
          = ({ seen := seen, pending := pend, processing := kept ++ rest,
               done := done,
               failed := hset fail (failJob job now).id (failJob job now) },
             true) := by
          simp [requeue_one, hg, hs, hb2, hd]
        simp only [List.map_cons, requeue_ids]
        rw [hro]
        rw [ih kept seen pend done
            (hset fail (failJob job now).id (failJob job now)) hnodup2]
        simp [retryJobs, failedAfter, List.filter_cons, hs, hb, Nat.add_comm]
    · -- not stale: untouched
      have hs2 : isStale job now timeout = false := by simpa using hs
      have hro : requeue_one
          { seen := seen, pending := pend,
            processing := kept ++ (id, job) :: rest, done := done,
            failed := fail } id now timeout
        = ({ seen := seen, pending := pend,
             processing := kept ++ (id, job) :: rest, done := done,
             failed := fail }, false) := by
        simp [requeue_one, hg, hs2]
      simp only [List.map_cons, requeue_ids]
      rw [hro]
      rw [show kept ++ (id, job) :: rest = (kept ++ [(id, job)]) ++ rest from
          List.append_cons kept (id, job) rest]
      rw [ih (kept ++ [(id, job)]) seen pend done fail hnodup1]
      simp [retryJobs, failedAfter, List.filter_cons, hs2, ← List.append_cons]

/-- C2: requeue_stale visits every job of the PROCESSING snapshot and, exactly
for the jobs whose elapsed time now - started_at strictly exceeds the
timeout, bumps attempts by 1, clears started_at, removes the job from
PROCESSING, and pushes the bumped job onto the head of PENDING when its new
attempts are below MAX_ATTEMPTS or writes it into FAILED with error "Timeout:
max attempts exceeded" and failed_at = now otherwise (retryJobs and
failedAfter spell out those two outcomes); it returns the number of jobs so
moved, and a job whose elapsed time equals the timeout stays in PROCESSING
untouched. The hypothesis that PROCESSING has no duplicate field names is an
invariant of a store hash. -/
theorem requeue_stale_correct (st : QueueState) (now timeout : Int)
    (h : (st.processing.map Prod.fst).Nodup) :
    requeue_stale st now timeout
      = ({ st with
           pending :=
             (retryJobs st.processing now timeout).reverse ++ st.pending,
           processing :=
             st.processing.filter (fun e => !isStale e.2 now timeout),
           failed := failedAfter st.processing st.failed now timeout },
         (st.processing.filter (fun e => isStale e.2 now timeout)).length)
    ∧ ∀ (id : String) (job : Job), (id, job) ∈ st.processing →
        now - job.started_at.getD 0 = timeout →
        (id, job) ∈ (requeue_stale st now timeout).1.processing := by
  obtain ⟨seen, pend, proc, done, fail⟩ := st
  have main : requeue_stale
      { seen := seen, pending := pend, processing := proc, done := done,
        failed := fail } now timeout
    = ({ seen := seen,
         pending := (retryJobs proc now timeout).reverse ++ pend,
         processing := proc.filter (fun e => !isStale e.2 now timeout),
         done := done, failed := failedAfter proc fail now timeout },
       (proc.filter (fun e => isStale e.2 now timeout)).length) :=
    requeue_ids_spec now timeout proc [] seen pend done fail (by simpa using h)
  refine ⟨main, ?_⟩
  intro id job hmem helapsed
  have hstale : isStale job now timeout = false := by
    unfold isStale
    rw [helapsed]
    simp
  rw [main]
  exact List.mem_filter.mpr ⟨hmem, by simp [hstale]⟩

/-- Witness for C2 at a concrete snapshot holding a stale job with attempts
left, a job exactly at the staleness boundary, and a stale job out of
attempts. -/
theorem requeue_stale_correct_witness :
    (requeue_stale stR 100 10
      = ({ stR with
           pending := (retryJobs stR.processing 100 10).reverse ++ stR.pending,
           processing := stR.processing.filter (fun e => !isStale e.2 100 10),
           failed := failedAfter stR.processing stR.failed 100 10 },
         (stR.processing.filter (fun e => isStale e.2 100 10)).length))
    ∧ ∀ (id : String) (job : Job), (id, job) ∈ stR.processing →
        (100 : Int) - job.started_at.getD 0 = 10 →
        (id, job) ∈ (requeue_stale stR 100 10).1.processing :=
  requeue_stale_correct stR 100 10 (by decide)

end Reaplex
